import Mathlib

/-!
Shallow embedding of src/terra_sdk/core/tx.py (qope/terra.py): the
transaction model (Tx, TxBody, AuthInfo, SignerInfo, ModeInfo,
CompactBitArray), the execution-log model (TxLog, TxInfo,
parse_tx_logs, parse_events_by_type) and their structured-document
codecs.  Python dicts are modelled as insertion-ordered association
lists inside the Data type; Python exceptions (KeyError,
AttributeError, TypeError, NotImplementedError) are modelled with the
Except monad over PyError.  Out-of-scope collaborators (Msg, Fee,
PublicKey) are modelled from the spec as opaque document-codec
capabilities, as the spec places them outside this core.
-/

set_option autoImplicit false

/-- Exceptions the embedded code can raise.  InvariantViolation is the
error kind the spec names for one-of violations; it is included so that
statements can distinguish it from the errors the code actually raises. -/
inductive PyError where
  | keyError (key : String)
  | typeError (msg : String)
  | attributeError (msg : String)
  | notImplementedError
  | unrecognizedType
  | invariantViolation
deriving DecidableEq, Repr

/-- Structured documents: the string-keyed JSON-like representation the
source calls data.  Objects are insertion-ordered association lists,
mirroring Python dict semantics. -/
inductive Data where
  | null : Data
  | str : String → Data
  | int : Int → Data
  | list : List Data → Data
  | obj : List (String × Data) → Data
deriving Repr

/-- Association-list lookup, mirroring Python dict membership and
indexing for string keys. -/
def assocGet {α : Type} : List (String × α) → String → Option α
  | [], _ => none
  | (k0, v) :: rest, k => if k = k0 then some v else assocGet rest k

/-- Association-list update, mirroring Python dict assignment: an
existing key keeps its position, a new key is appended at the end. -/
def assocSet {α : Type} : List (String × α) → String → α → List (String × α)
  | [], k, v => [(k, v)]
  | (k0, v0) :: rest, k, v =>
    if k = k0 then (k, v) :: rest else (k0, v0) :: assocSet rest k v

/-- Association-list deletion, mirroring the del statement on a dict. -/
def delKey {α : Type} (m : List (String × α)) (k : String) : List (String × α) :=
  m.filter (fun kv => kv.1 ≠ k)

/-- Indexing a document with a key, as Python data[key]: KeyError when
the key is missing, TypeError when the value is not a dict. -/
def Data.getKey : Data → String → Except PyError Data
  | .obj kvs, k =>
    match assocGet kvs k with
    | some v => .ok v
    | none => .error (.keyError k)
  | _, k => .error (.typeError ("cannot index a non-dict value with key " ++ k))

/-- Key lookup on a document that cannot fail, used to observe the
presence and value of a key in statements. -/
def Data.lookupKey : Data → String → Option Data
  | .obj kvs, k => assocGet kvs k
  | _, _ => none

/-- Whether a document object carries the given key. -/
def Data.hasKey (d : Data) (k : String) : Bool :=
  (d.lookupKey k).isSome

/-- Python truthiness of a document value: None, empty string, zero,
empty list and empty dict are falsy. -/
def Data.truthy : Data → Bool
  | .null => false
  | .str s => s != ""
  | .int n => n != 0
  | .list l => !l.isEmpty
  | .obj m => !m.isEmpty

/-- Shape check used when a dynamically typed document field is bound
to a string-typed slot of the model. -/
def Data.asString : Data → Except PyError String
  | .str s => .ok s
  | _ => .error (.typeError "expected a string")

/-- Shape check used when a dynamically typed document field is bound
to an integer-typed slot of the model (the attrs converter int). -/
def Data.asInt : Data → Except PyError Int
  | .int n => .ok n
  | _ => .error (.typeError "expected an int")

/-- Shape check for list-valued document fields. -/
def Data.asList : Data → Except PyError (List Data)
  | .list l => .ok l
  | _ => .error (.typeError "expected a list")

/-- Sequential effectful map over a list, mirroring a Python list
comprehension whose element expression may raise: elements are
evaluated left to right and the first exception escapes. -/
def exceptMap {α β : Type} (f : α → Except PyError β) : List α → Except PyError (List β)
  | [] => .ok []
  | a :: rest => do
    let b ← f a
    let bs ← exceptMap f rest
    .ok (b :: bs)

/-- Whether an Except computation finished without raising. -/
def exceptOk {α : Type} : Except PyError α → Bool
  | .ok _ => true
  | .error _ => false

/-- Shape check for lists of strings (the signatures field). -/
def Data.asStringList (d : Data) : Except PyError (List String) := do
  let l ← d.asList
  exceptMap Data.asString l

/-- Sign modes, aliased in the source to the generated SignMode enum;
only the constructors this file mentions are modelled. -/
inductive SignMode where
  | unspecified
  | direct
  | textual
  | legacyAminoJson
deriving DecidableEq, Repr

/-- Modelled from the spec: Msg is an opaque polymorphic collaborator
(terra_sdk.core.msg, outside this core) exposing a strict-inverse
structured-document codec; it is carried as its own document. -/
structure Msg where
  doc : Data

/-- Modelled from the spec: the Msg collaborator document encoding. -/
def Msg.to_data (m : Msg) : Data := m.doc

/-- Modelled from the spec: the Msg collaborator document decoding,
the strict inverse of Msg.to_data. -/
def Msg.from_data (d : Data) : Except PyError Msg := .ok ⟨d⟩

/-- Modelled from the spec: Fee is an opaque collaborator
(terra_sdk.core.fee, outside this core) exposing a strict-inverse
structured-document codec; it is carried as its own document. -/
structure Fee where
  doc : Data

/-- Modelled from the spec: the Fee collaborator document encoding. -/
def Fee.to_data (f : Fee) : Data := f.doc

/-- Modelled from the spec: the Fee collaborator document decoding. -/
def Fee.from_data (d : Data) : Except PyError Fee := .ok ⟨d⟩

/-- Modelled from the spec: the polymorphic PublicKey collaborator
(terra_sdk.core.public_key, outside this core).  The variants this
core inspects are SimplePublicKey (a single key) and LegacyAminoPubKey
(a multisig aggregate of constituent keys). -/
inductive PublicKey where
  | simple (key : String)
  | legacyAminoMulti (threshold : Nat) (public_keys : List PublicKey)
deriving Repr

/-- Modelled from the spec: the PublicKey collaborator document
encoding.  Key material is out of scope for this core; the multisig
encoding preserves the count of constituent keys, the only observable
this core uses. -/
def PublicKey.to_data : PublicKey → Data
  | .simple key =>
    .obj [("@type", .str "/cosmos.crypto.secp256k1.PubKey"), ("key", .str key)]
  | .legacyAminoMulti threshold public_keys =>
    .obj [("@type", .str "/cosmos.crypto.multisig.LegacyAminoPubKey"),
          ("threshold", .int threshold),
          ("public_keys", .list (public_keys.map (fun _ => Data.null)))]

/-- Modelled from the spec: the PublicKey collaborator document
decoding, dispatching on the registered type tag; unregistered tags
are a recoverable UnrecognizedTypeError.  Constituent key material is
out of scope, so multisig members decode to placeholder simple keys. -/
def PublicKey.from_data (d : Data) : Except PyError PublicKey := do
  let t ← d.getKey "@type"
  match t with
  | .str "/cosmos.crypto.secp256k1.PubKey" => do
    let k ← d.getKey "key"
    let s ← k.asString
    .ok (.simple s)
  | .str "/cosmos.crypto.multisig.LegacyAminoPubKey" => do
    let th ← d.getKey "threshold"
    let n ← th.asInt
    let ks ← d.getKey "public_keys"
    let l ← ks.asList
    .ok (.legacyAminoMulti n.toNat (l.map (fun _ => PublicKey.simple "")))
  | _ => .error .unrecognizedType

/-- CompactBitArray, src/terra_sdk/core/tx.py lines 350-372: packed bit
buffer with the count of bits used in the final byte.  The source
annotates elems as str. -/
structure CompactBitArray where
  extra_bits_stored : Nat
  elems : String
deriving DecidableEq, Repr

/-- CompactBitArray.from_data, lines 355-361: unwraps the value key and
reads both fields (the attrs converter int applied to
extra_bits_stored is modelled as a shape-checked integer decode). -/
def CompactBitArray.from_data (d : Data) : Except PyError CompactBitArray := do
  let v ← d.getKey "value"
  let e ← v.getKey "extra_bits_stored"
  let n ← e.asInt
  let el ← v.getKey "elems"
  let s ← el.asString
  .ok ⟨n.toNat, s⟩

/-- CompactBitArray.from_bits, lines 370-372: the source body is
raise NotImplementedError with a TODO marker. -/
def CompactBitArray.from_bits (_n : Nat) : Except PyError CompactBitArray :=
  .error .notImplementedError

/-- ModeInfoSingle, lines 300-326: holds the single sign mode. -/
structure ModeInfoSingle where
  mode : SignMode
deriving DecidableEq, Repr

/-- ModeInfoSingle.to_data, lines 304-307: the source builds a dict
expression but has no return statement, so the method returns None. -/
def ModeInfoSingle.to_data (_s : ModeInfoSingle) : Data := .null

mutual
/-- ModeInfo, lines 258-297: two independently optional variant
slots (the one-of the spec describes). -/
inductive ModeInfo where
  | mk (single_mode : Option ModeInfoSingle) (multi_mode : Option ModeInfoMulti)
/-- ModeInfoMulti, lines 329-347: the participation bitarray and one
nested ModeInfo per constituent key. -/
inductive ModeInfoMulti where
  | mk (bitarray : CompactBitArray) (mode_infos : List ModeInfo)
end

/-- Accessor for the single variant slot of ModeInfo. -/
def ModeInfo.single_mode : ModeInfo → Option ModeInfoSingle
  | .mk s _ => s

/-- Accessor for the multi variant slot of ModeInfo. -/
def ModeInfo.multi_mode : ModeInfo → Option ModeInfoMulti
  | .mk _ m => m

/-- Accessor for the bitarray of ModeInfoMulti. -/
def ModeInfoMulti.bitarray : ModeInfoMulti → CompactBitArray
  | .mk b _ => b

/-- Accessor for the nested mode infos of ModeInfoMulti. -/
def ModeInfoMulti.mode_infos : ModeInfoMulti → List ModeInfo
  | .mk _ l => l

/-- ModeInfo.to_data, lines 264-268: the single slot is encoded through
ModeInfoSingle.to_data (which returns None, see above) or None; for
the multi slot the source invokes self.multi_mode.todata(), a method
that does not exist (the class defines to_data nowhere and the name is
misspelt), so a populated multi slot raises AttributeError.  Python
evaluates both dict entries before the dict is produced. -/
def ModeInfo.to_data : ModeInfo → Except PyError Data
  | .mk s m =>
    let singleVal : Data :=
      match s with
      | some si => si.to_data
      | none => .null
    match m with
    | some _ => .error (.attributeError "ModeInfoMulti object has no attribute todata")
    | none => .ok (.obj [("single", singleVal), ("multi", .null)])

/-- SignMode decoding used by ModeInfoSingle.from_data; the source
stores the raw document value into the mode slot, modelled as a
shape-checked decode to the enum. -/
def SignMode.ofData : Data → Except PyError SignMode
  | .int 0 => .ok .unspecified
  | .int 1 => .ok .direct
  | .int 2 => .ok .textual
  | .int 127 => .ok .legacyAminoJson
  | _ => .error (.typeError "unknown sign mode")

/-- ModeInfoSingle.from_data, lines 309-314: unwraps the value key and
reads the mode field. -/
def ModeInfoSingle.from_data (d : Data) : Except PyError ModeInfoSingle := do
  let v ← d.getKey "value"
  let m ← v.getKey "mode"
  let sm ← SignMode.ofData m
  .ok ⟨sm⟩

/-- ModeInfoMulti.from_data, lines 334-340: unwraps the value key and
assigns the raw documents data bitarray and data mode_infos into the
typed slots without decoding them (a latent type confusion in the
source).  This embedding decodes the bitarray document and renders the
never-again-read undecoded mode_infos list as empty, the nearest typed
rendering. -/
def ModeInfoMulti.from_data (d : Data) : Except PyError ModeInfoMulti := do
  let v ← d.getKey "value"
  let b ← v.getKey "bitarray"
  let cba ← CompactBitArray.from_data b
  let _mis ← v.getKey "mode_infos"
  .ok (.mk cba [])

/-- ModeInfo.from_data, lines 270-276: unwraps the value key, then
decodes each slot only when its document value is truthy. -/
def ModeInfo.from_data (d : Data) : Except PyError ModeInfo := do
  let v ← d.getKey "value"
  let s ← v.getKey "single"
  let sm ← if s.truthy then (ModeInfoSingle.from_data s).map some else .ok none
  let m ← v.getKey "multi"
  let mm ← if m.truthy then (ModeInfoMulti.from_data m).map some else .ok none
  .ok (.mk sm mm)

/-- SignerInfo, lines 212-253: who signed, with what key, in which
mode, at which account sequence. -/
structure SignerInfo where
  public_key : PublicKey
  sequence : Nat
  mode_info : ModeInfo

/-- SignerInfo.to_data, lines 224-229: note that the sequence is
emitted as a native integer, not converted to a string.  Python
evaluates the dict entries left to right, so an exception from
mode_info.to_data escapes after the first two entries are computed. -/
def SignerInfo.to_data (s : SignerInfo) : Except PyError Data := do
  let mi ← s.mode_info.to_data
  .ok (.obj [("public_key", s.public_key.to_data),
             ("sequence", .int s.sequence),
             ("mode_info", mi)])

/-- SignerInfo.from_data, lines 238-245: unwraps the value key and
decodes the three fields (the attrs converter int on sequence is
modelled as a shape-checked integer decode). -/
def SignerInfo.from_data (d : Data) : Except PyError SignerInfo := do
  let v ← d.getKey "value"
  let pk ← v.getKey "public_key"
  let p ← PublicKey.from_data pk
  let sq ← v.getKey "sequence"
  let n ← sq.asInt
  let mi ← v.getKey "mode_info"
  let m ← ModeInfo.from_data mi
  .ok ⟨p, n.toNat, m⟩

/-- AuthInfo, lines 171-209: the signer infos and the fee. -/
structure AuthInfo where
  signer_infos : List SignerInfo
  fee : Fee

/-- AuthInfo.to_data, lines 184-188. -/
def AuthInfo.to_data (a : AuthInfo) : Except PyError Data := do
  let sis ← exceptMap SignerInfo.to_data a.signer_infos
  .ok (.obj [("signer_infos", .list sis), ("fee", a.fee.to_data)])

/-- AuthInfo.from_data, lines 196-202: unwraps the value key, decodes
the signer infos then the fee. -/
def AuthInfo.from_data (d : Data) : Except PyError AuthInfo := do
  let v ← d.getKey "value"
  let sis ← v.getKey "signer_infos"
  let l ← sis.asList
  let infos ← exceptMap SignerInfo.from_data l
  let f ← v.getKey "fee"
  let fee ← Fee.from_data f
  .ok ⟨infos, fee⟩

/-- TxBody, lines 126-168: the messages, the memo (attrs default the
empty string) and the optional timeout height (attrs default None). -/
structure TxBody where
  messages : List Msg
  memo : Option String
  timeout_height : Option Nat

/-- TxBody.to_data, lines 139-144: memo falls back to the empty string
when falsy, timeout_height falls back to 0 when falsy. -/
def TxBody.to_data (b : TxBody) : Data :=
  .obj [("messages", .list (b.messages.map Msg.to_data)),
        ("memo", .str (match b.memo with
          | some m => if m = "" then "" else m
          | none => "")),
        ("timeout_height", .int (match b.timeout_height with
          | some n => if n = 0 then 0 else (n : Int)
          | none => 0))]

/-- TxBody.from_data, lines 153-160: the first statement replaces the
input with data of the value key, so a document lacking that wrapper
key raises KeyError before any field is read. -/
def TxBody.from_data (d : Data) : Except PyError TxBody := do
  let v ← d.getKey "value"
  let ms ← v.getKey "messages"
  let l ← ms.asList
  let msgs ← exceptMap Msg.from_data l
  let memoD ← v.getKey "memo"
  let memo ← memoD.asString
  let thD ← v.getKey "timeout_height"
  let th ← thD.asInt
  .ok ⟨msgs, some memo, some th.toNat⟩

/-- Tx, lines 55-124: the broadcastable transaction. -/
structure Tx where
  body : TxBody
  auth_info : AuthInfo
  signatures : List String

/-- Tx.to_data, lines 68-73. -/
def Tx.to_data (tx : Tx) : Except PyError Data := do
  let a ← tx.auth_info.to_data
  .ok (.obj [("body", tx.body.to_data),
             ("auth_info", a),
             ("signatures", .list (tx.signatures.map Data.str))])

/-- Tx.from_data, lines 82-89: the first statement replaces the input
with data of the value key, so a document lacking that wrapper key
raises KeyError before any field is read. -/
def Tx.from_data (d : Data) : Except PyError Tx := do
  let v ← d.getKey "value"
  let b ← v.getKey "body"
  let body ← TxBody.from_data b
  let a ← v.getKey "auth_info"
  let auth ← AuthInfo.from_data a
  let sg ← v.getKey "signatures"
  let sigs ← sg.asStringList
  .ok ⟨body, auth, sigs⟩

/-- SignerData, lines 49-52: the externally supplied signer metadata. -/
structure SignerData where
  sequence : Nat
  public_key : Option PublicKey

/-- The per-signer body of the loop in Tx.append_empty_signatures,
lines 100-122: a legacy-amino multisig key routes through
CompactBitArray.from_bits, which raises NotImplementedError; were that
implemented, the source would next call ModeInfoMulti with only the
bitarray argument, omitting the required mode_infos argument, a
TypeError.  Every other key, and the no-key placeholder, yields a
single DIRECT mode info. -/
def signerInfoFor (signer : SignerData) : Except PyError SignerInfo :=
  match signer.public_key with
  | some pk =>
    match pk with
    | .legacyAminoMulti _ public_keys => do
      let _bitarray ← CompactBitArray.from_bits public_keys.length
      .error (.typeError "ModeInfoMulti missing required positional argument mode_infos")
    | _ => .ok ⟨pk, signer.sequence, .mk (some ⟨SignMode.direct⟩) none⟩
  | none => .ok ⟨.simple "", signer.sequence, .mk (some ⟨SignMode.direct⟩) none⟩

/-- Tx.append_empty_signatures, lines 99-124: for each signer the
source appends one SignerInfo to auth_info.signer_infos and one
placeholder signature (a single space) to signatures.  The source
mutates the transaction in place and an exception escapes after the
appends already performed, so the error value carries the transaction
as mutated so far. -/
def Tx.append_empty_signatures (tx : Tx) : List SignerData → Except (PyError × Tx) Tx
  | [] => .ok tx
  | signer :: rest =>
    match signerInfoFor signer with
    | .error e => .error (e, tx)
    | .ok si =>
      Tx.append_empty_signatures
        { tx with
          auth_info := { tx.auth_info with
                         signer_infos := tx.auth_info.signer_infos ++ [si] },
          signatures := tx.signatures ++ [" "] } rest

/-- A raw logged attribute record as it arrives from the chain: a dict
with a key and, looked up with dict.get, an optional value. -/
structure RawAttribute where
  key : String
  value : Option String
deriving DecidableEq, Repr

/-- A raw logged event record as it arrives from the chain: a dict
with a type string and an attributes list, both indexed directly by
parse_events_by_type. -/
structure RawEvent where
  type : String
  attributes : List RawAttribute
deriving DecidableEq, Repr

/-- The list of attribute values accumulated under one event type and
one attribute key; a value is None when the raw attribute lacked one. -/
abbrev ValueList := List (Option String)

/-- The derived type-to-attribute-key index, an insertion-ordered dict
of dicts as the source builds it. -/
abbrev EventsByType := List (String × List (String × ValueList))

/-- One iteration of the inner loop of parse_events_by_type, lines
377-383: ensure the outer entry for the event type and the inner entry
for the attribute key exist, then append the attribute value. -/
def eventsStep (events : EventsByType) (t k : String) (v : Option String) : EventsByType :=
  let inner := (assocGet events t).getD []
  let cur := (assocGet inner k).getD []
  assocSet events t (assocSet inner k (cur ++ [v]))

/-- parse_events_by_type, lines 375-384: fold over the events in
order and over each event's attributes in order. -/
def parse_events_by_type (event_data : List RawEvent) : EventsByType :=
  event_data.foldl
    (fun events ev =>
      ev.attributes.foldl
        (fun es att => eventsStep es ev.type att.key att.value) events)
    []

/-- Lookup in the derived index: first the event type, then the
attribute key. -/
def lookup2 (m : EventsByType) (t k : String) : Option ValueList :=
  match assocGet m t with
  | none => none
  | some inner => assocGet inner k

/-- The values carried, in encounter order, by attributes with the
given key inside events with the given type: the reference list the
derived index is proved to agree with. -/
def eventValuesSpec : List RawEvent → String → String → ValueList
  | [], _, _ => []
  | e :: rest, t, k =>
    (if e.type = t then (e.attributes.filter (fun a => a.key = k)).map RawAttribute.value
     else []) ++ eventValuesSpec rest t k

/-- Combining an existing (possibly absent) value list with newly
appended values, tracking that an entry is created on first use. -/
def combineVals (o : Option ValueList) (l : ValueList) : Option ValueList :=
  match o with
  | some xs => some (xs ++ l)
  | none => if l = [] then none else some l

/-- TxLog, lines 386-411: one per-message execution log, with the
derived events_by_type index computed once at construction. -/
structure TxLog where
  msg_index : Nat
  log : Option String
  events : List RawEvent
  events_by_type : EventsByType

/-- Construction of a TxLog as the attrs initializer performs it,
lines 410-411: attrs_post_init computes the derived index by iterating
the events, so a None events field raises TypeError (NoneType is not
iterable) and the object is never produced. -/
def TxLog.make (msg_index : Nat) (log : Option String) (events : Option (List RawEvent)) :
    Except PyError TxLog :=
  match events with
  | none => .error (.typeError "NoneType object is not iterable")
  | some evs => .ok ⟨msg_index, log, evs, parse_events_by_type evs⟩

/-- Document encoding of a raw attribute, used by the inherited
field-per-key serializer of TxLog. -/
def RawAttribute.to_data (a : RawAttribute) : Data :=
  .obj [("key", .str a.key),
        ("value", match a.value with | some v => .str v | none => .null)]

/-- Document encoding of a raw event, used by the inherited
field-per-key serializer of TxLog. -/
def RawEvent.to_data (e : RawEvent) : Data :=
  .obj [("type", .str e.type),
        ("attributes", .list (e.attributes.map RawAttribute.to_data))]

/-- Document encoding of the derived index, used by the inherited
field-per-key serializer of TxLog. -/
def eventsByTypeToData (m : EventsByType) : Data :=
  .obj (m.map (fun tkv =>
    (tkv.1, Data.obj (tkv.2.map (fun kv =>
      (kv.1, Data.list (kv.2.map (fun v =>
        match v with | some s => Data.str s | none => Data.null))))))))

/-- Modelled from the spec: TxLog defines no to_data of its own in the
provided source; the generic structured-document contract (the
inherited serializer of the JSONSerializable base, outside src) emits
one key per field. -/
def TxLog.to_data (l : TxLog) : Data :=
  .obj [("msg_index", .int l.msg_index),
        ("log", match l.log with | some s => .str s | none => .null),
        ("events", .list (l.events.map RawEvent.to_data)),
        ("events_by_type", eventsByTypeToData l.events_by_type)]

/-- One raw per-message log record as handed to parse_tx_logs: a dict
whose log and events entries are read with dict.get and may be
absent. -/
structure LogRecord where
  log : Option String
  events : Option (List RawEvent)

/-- parse_tx_logs, lines 454-462: a falsy input (None or the empty
list) yields None; otherwise one TxLog per record, numbered by
enumerate. -/
def parse_tx_logs : Option (List LogRecord) → Except PyError (Option (List TxLog))
  | none => .ok none
  | some [] => .ok none
  | some logs =>
    (exceptMap (fun p => TxLog.make p.1 p.2.log p.2.events) (logs.enum)).map some

/-- TxInfo, lines 474-537: the full receipt of an included
transaction. -/
structure TxInfo where
  height : Nat
  txhash : String
  rawlog : String
  logs : Option (List TxLog)
  gas_wanted : Nat
  gas_used : Nat
  tx : Tx
  timestamp : String
  code : Option Nat
  codespace : Option String

/-- Truthiness of the logs field as Python evaluates it: None and the
empty list are falsy. -/
def TxInfo.logsTruthy (i : TxInfo) : Bool :=
  match i.logs with
  | some (_ :: _) => true
  | _ => false

/-- Truthiness of the code field as Python evaluates it: None and the
integer 0 are falsy. -/
def TxInfo.codeTruthy (i : TxInfo) : Bool :=
  match i.code with
  | some c => c != 0
  | none => false

/-- Truthiness of the codespace field as Python evaluates it: None and
the empty string are falsy. -/
def TxInfo.codespaceTruthy (i : TxInfo) : Bool :=
  match i.codespace with
  | some s => s != ""
  | none => false

/-- TxInfo.to_data, lines 514-537: builds the full document (height,
gas_wanted and gas_used via str, code and codespace as the raw values,
logs as encoded logs or None), then deletes the logs, code and
codespace keys whenever the corresponding field is falsy. -/
def TxInfo.to_data (i : TxInfo) : Except PyError Data := do
  let txd ← i.tx.to_data
  let base : List (String × Data) :=
    [("height", .str (toString i.height)),
     ("txhash", .str i.txhash),
     ("raw_log", .str i.rawlog),
     ("logs", match i.logs with
       | some ls => if ls.isEmpty then Data.null else Data.list (ls.map TxLog.to_data)
       | none => Data.null),
     ("gas_wanted", .str (toString i.gas_wanted)),
     ("gas_used", .str (toString i.gas_used)),
     ("timestamp", .str i.timestamp),
     ("tx", txd),
     ("code", match i.code with | some c => Data.int c | none => Data.null),
     ("codespace", match i.codespace with | some s => Data.str s | none => Data.null)]
  let d1 := if i.logsTruthy then base else delKey base "logs"
  let d2 := if i.codeTruthy then d1 else delKey d1 "code"
  let d3 := if i.codespaceTruthy then d2 else delKey d2 "codespace"
  .ok (.obj d3)

/-- ModeInfoSingle message mirror of the generated protobuf class. -/
structure ModeInfoSingle_pb where
  mode : Nat
deriving DecidableEq, Repr

/-- CompactBitArray message mirror of the generated protobuf class. -/
structure CompactBitArray_pb where
  extra_bits_stored : Nat
  elems : String
deriving DecidableEq, Repr

mutual
/-- ModeInfo message mirror of the generated protobuf class: the
single and multi one-of slots. -/
inductive ModeInfo_pb where
  | mk (single : Option ModeInfoSingle_pb) (multi : Option ModeInfoMulti_pb)
/-- ModeInfoMulti message mirror of the generated protobuf class. -/
inductive ModeInfoMulti_pb where
  | mk (bitarray : CompactBitArray_pb) (mode_infos : List ModeInfo_pb)
end

/-- ModeInfoSingle.to_proto, lines 316-319: the source assigns the
constant 1 to the mode field, ignoring the requested mode (the
commented-out conversion shows the intent). -/
def ModeInfoSingle.to_proto (_s : ModeInfoSingle) : ModeInfoSingle_pb :=
  ⟨1⟩

/-- Invoking to_proto on a populated multi slot: ModeInfoMulti defines
no to_proto method anywhere in the source, so the attribute access
raises AttributeError. -/
def ModeInfoMulti.to_proto (_m : ModeInfoMulti) : Except PyError ModeInfoMulti_pb :=
  .error (.attributeError "ModeInfoMulti object has no attribute to_proto")

/-- ModeInfo.to_proto, lines 278-284: when the single slot is truthy
it alone is encoded (even when the multi slot is also populated);
otherwise the source invokes to_proto on the multi slot, which is
either None (AttributeError on NoneType) or a ModeInfoMulti (whose
class defines no to_proto, again AttributeError).  No branch raises
InvariantViolation. -/
def ModeInfo.to_proto : ModeInfo → Except PyError ModeInfo_pb
  | .mk (some s) _ => .ok (.mk (some s.to_proto) none)
  | .mk none (some m) => (m.to_proto).map (fun mp => .mk none (some mp))
  | .mk none none => .error (.attributeError "NoneType object has no attribute to_proto")

/-- Whether a computation raised InvariantViolation, the error kind
the spec prescribes for one-of violations. -/
def raisesInvariantViolation {α : Type} : Except PyError α → Bool
  | .error .invariantViolation => true
  | _ => false

/-- C2: CompactBitArray.from_bits(N) is claimed to construct an
all-unset bitarray over N bits; the source instead raises
NotImplementedError for every N (lines 370-372 are a TODO stub), in
particular for the values 9, 8 and 16 the claim names. -/
theorem from_bits_always_raises_not_implemented :
    ∀ n : Nat, CompactBitArray.from_bits n = .error .notImplementedError :=
  fun _ => rfl

/-- C3: append_empty_signatures is claimed to give a multisig signer a
Multi mode info over N bits; evaluating the source on one no-key
entry, one single-key entry and one legacy-amino multisig entry shows
the first two correctly receive Single(DIRECT) signer infos, but the
multisig entry raises NotImplementedError out of
CompactBitArray.from_bits, so no Multi mode info is ever produced. -/
theorem append_empty_signatures_multisig_raises :
    Tx.append_empty_signatures
      ⟨⟨[], some "", none⟩, ⟨[], ⟨Data.null⟩⟩, []⟩
      [⟨0, none⟩,
       ⟨5, some (.simple "k1")⟩,
       ⟨7, some (.legacyAminoMulti 2 [.simple "a", .simple "b", .simple "c"])⟩] =
    .error (.notImplementedError,
      ⟨⟨[], some "", none⟩,
       ⟨[⟨.simple "", 0, .mk (some ⟨SignMode.direct⟩) none⟩,
         ⟨.simple "k1", 5, .mk (some ⟨SignMode.direct⟩) none⟩], ⟨Data.null⟩⟩,
       [" ", " "]⟩) := rfl

/-- C5: append_empty_signatures is claimed to grow both sequences by
exactly N for every N-entry input; evaluating the source on a
transaction holding one prior signer and the two-entry input
[single-key, multisig] shows the prior entries are preserved and the
single-key entry is appended, but the multisig entry raises
NotImplementedError, leaving both sequences grown by 1 instead of 2. -/
theorem append_empty_signatures_partial_append :
    Tx.append_empty_signatures
      ⟨⟨[], some "", none⟩,
       ⟨[⟨.simple "z", 1, .mk (some ⟨SignMode.direct⟩) none⟩], ⟨Data.null⟩⟩,
       ["sig0"]⟩
      [⟨2, some (.simple "k")⟩, ⟨3, some (.legacyAminoMulti 1 [.simple "a"])⟩] =
    .error (.notImplementedError,
      ⟨⟨[], some "", none⟩,
       ⟨[⟨.simple "z", 1, .mk (some ⟨SignMode.direct⟩) none⟩,
         ⟨.simple "k", 2, .mk (some ⟨SignMode.direct⟩) none⟩], ⟨Data.null⟩⟩,
       ["sig0", " "]⟩) := rfl

/-- C4 counterexample: the claim demands that parse_tx_logs applied to
the empty sequence return an empty sequence distinct from the no-logs
result; the source returns the no-logs result None, because the empty
list is falsy in the conditional of lines 454-462. -/
theorem parse_tx_logs_empty_is_no_logs :
    parse_tx_logs (some []) = .ok none := rfl

/-- C7 counterexample: the claim demands that the signer sequence be
encoded as a decimal string; SignerInfo.to_data (lines 224-229) emits
the native integer 7, not the string 7, for a concrete signer info. -/
theorem signerinfo_sequence_encoded_as_int :
    (SignerInfo.to_data ⟨.simple "abc", 7, .mk (some ⟨SignMode.direct⟩) none⟩).map
      (fun d => d.lookupKey "sequence") = .ok (some (Data.int 7)) ∧
    Data.int 7 ≠ Data.str "7" := by
  refine ⟨rfl, ?_⟩
  simp

/-- C9 counterexample: the claim demands that serializing a ModeInfo
with both variants populated, or with neither populated, fail with
InvariantViolation; the source (lines 278-284) silently encodes the
single variant when both are populated, and raises AttributeError (a
None dereference) when neither is. -/
theorem modeinfo_to_proto_no_invariant_violation :
    ModeInfo.to_proto (.mk (some ⟨SignMode.direct⟩) (some (.mk ⟨0, ""⟩ []))) =
      .ok (.mk (some ⟨1⟩) none) ∧
    ModeInfo.to_proto (.mk none none) =
      .error (.attributeError "NoneType object has no attribute to_proto") := ⟨rfl, rfl⟩

/-- C9 amended: ModeInfo.to_proto silently encodes the single variant
(with the hardcoded wire mode 1) whenever it is populated, including
when the multi variant is also populated; with the single variant
absent it raises AttributeError, whether the multi variant is
populated (ModeInfoMulti defines no to_proto) or absent (None
dereference); no input raises InvariantViolation. -/
theorem modeinfo_to_proto_behaviour :
    (∀ (s : ModeInfoSingle) (m : ModeInfoMulti),
      ModeInfo.to_proto (.mk (some s) (some m)) = .ok (.mk (some ⟨1⟩) none)) ∧
    (∀ m : ModeInfoMulti,
      ModeInfo.to_proto (.mk none (some m)) =
        .error (.attributeError "ModeInfoMulti object has no attribute to_proto")) ∧
    (ModeInfo.to_proto (.mk none none) =
      .error (.attributeError "NoneType object has no attribute to_proto")) ∧
    (∀ mi : ModeInfo, raisesInvariantViolation (ModeInfo.to_proto mi) = false) := by
  refine ⟨fun s m => rfl, fun m => rfl, rfl, fun mi => ?_⟩
  rcases mi with ⟨s, m⟩
  cases s <;> cases m <;> rfl

/-- C1: the claim demands from_document(to_document(x)) == x for every
well-formed entity; the source cannot satisfy it for any input, since
TxBody.from_data and Tx.from_data (lines 82-89 and 153-160) begin by
indexing a value wrapper key that to_data (lines 68-73 and 139-144)
never writes, raising KeyError before any field is read.  The first
conjunct evaluates the body codec: the round trip raises KeyError for
every body.  The second evaluates the whole-transaction codec: the
composition never returns successfully for any transaction. -/
theorem document_roundtrip_requires_value_key :
    (∀ b : TxBody, TxBody.from_data (TxBody.to_data b) = .error (.keyError "value")) ∧
    (∀ tx : Tx, exceptOk ((Tx.to_data tx).bind Tx.from_data) = false) := by
  constructor
  · intro b
    rfl
  · intro tx
    unfold Tx.to_data
    rcases htx : tx.auth_info.to_data with e | a
    · rfl
    · rfl

theorem combineVals_nil (o : Option ValueList) : combineVals o [] = o := by
  cases o <;> simp [combineVals]

theorem combineVals_append (o : Option ValueList) (l1 l2 : ValueList) :
    combineVals (combineVals o l1) l2 = combineVals o (l1 ++ l2) := by
  cases o with
  | some xs => simp [combineVals, List.append_assoc]
  | none =>
    by_cases h1 : l1 = []
    · subst h1; simp [combineVals]
    · simp [combineVals, h1]

theorem assocGet_assocSet {α : Type} (m : List (String × α)) (k k' : String) (v : α) :
    assocGet (assocSet m k v) k' = if k' = k then some v else assocGet m k' := by
  induction m with
  | nil => simp [assocSet, assocGet]
  | cons p rest ih =>
    obtain ⟨k0, v0⟩ := p
    by_cases h : k = k0
    · subst h
      simp only [assocSet, if_pos rfl, assocGet]
      by_cases h' : k' = k <;> simp [h']
    · simp only [assocSet, if_neg h, assocGet]
      by_cases h' : k' = k0
      · subst h'
        have hne : ¬ (k' = k) := fun hk => h hk.symm
        simp [hne]
      · simp [h', ih]

theorem lookup2_eventsStep (m : EventsByType) (t' k' t k : String) (v : Option String) :
    lookup2 (eventsStep m t' k' v) t k =
      if t = t' ∧ k = k' then combineVals (lookup2 m t k) [v] else lookup2 m t k := by
  unfold eventsStep lookup2
  rw [assocGet_assocSet]
  by_cases ht : t = t'
  · subst ht
    rw [if_pos rfl]
    dsimp only
    rw [assocGet_assocSet]
    by_cases hk : k = k'
    · rw [if_pos hk, if_pos ⟨rfl, hk⟩]
      cases hm : assocGet m t with
      | none => simp [combineVals, assocGet]
      | some inner =>
        cases hi : assocGet inner k' with
        | none => subst hk; simp [hi, combineVals]
        | some cur => subst hk; simp [hi, combineVals]
    · rw [if_neg hk, if_neg (fun hc => hk hc.2)]
      cases hm : assocGet m t with
      | none => simp [assocGet]
      | some inner => simp
  · rw [if_neg ht, if_neg (fun hc => ht hc.1)]

theorem lookup2_attributes_fold (atts : List RawAttribute) (m : EventsByType)
    (t' t k : String) :
    lookup2 (atts.foldl (fun es att => eventsStep es t' att.key att.value) m) t k =
      if t = t' then
        combineVals (lookup2 m t k)
          ((atts.filter (fun a => a.key = k)).map RawAttribute.value)
      else lookup2 m t k := by
  induction atts generalizing m with
  | nil =>
    by_cases ht : t = t'
    · rw [if_pos ht]; simp [combineVals_nil]
    · rw [if_neg ht]; rfl
  | cons a rest ih =>
    rw [List.foldl_cons, ih, lookup2_eventsStep]
    by_cases ht : t = t'
    · rw [if_pos ht, if_pos ht]
      by_cases hk : k = a.key
      · rw [if_pos ⟨ht, hk⟩, combineVals_append]
        have : a.key = k := hk.symm
        simp [List.filter_cons, this]
      · rw [if_neg (fun hc => hk hc.2)]
        have : ¬ (a.key = k) := fun hc => hk hc.symm
        simp [List.filter_cons, this]
    · rw [if_neg ht, if_neg ht, if_neg (fun hc => ht hc.1)]

theorem lookup2_events_fold (evs : List RawEvent) (m : EventsByType) (t k : String) :
    lookup2 (evs.foldl
        (fun events ev =>
          ev.attributes.foldl
            (fun es att => eventsStep es ev.type att.key att.value) events) m) t k =
      combineVals (lookup2 m t k) (eventValuesSpec evs t k) := by
  induction evs generalizing m with
  | nil => rw [List.foldl_nil, eventValuesSpec, combineVals_nil]
  | cons e rest ih =>
    rw [List.foldl_cons, ih, lookup2_attributes_fold, eventValuesSpec]
    by_cases ht : t = e.type
    · rw [if_pos ht, combineVals_append]
      have : e.type = t := ht.symm
      simp [this]
    · rw [if_neg ht]
      have : ¬ (e.type = t) := fun hc => ht hc.symm
      simp [this]

/-- C8: the derived events_by_type index agrees with the specification
rule.  The entry for an event type and attribute key exists exactly
when some event of that type carries an attribute with that key, in
which case it holds every such attribute value, in encounter order,
duplicates preserved; and the concrete transfer/amount example of the
claim evaluates as stated. -/
theorem events_by_type_characterisation :
    (∀ (evs : List RawEvent) (t k : String),
      lookup2 (parse_events_by_type evs) t k =
        if eventValuesSpec evs t k = [] then none else some (eventValuesSpec evs t k)) ∧
    parse_events_by_type
        [⟨"transfer", [⟨"amount", some "10"⟩, ⟨"amount", some "20"⟩]⟩] =
      [("transfer", [("amount", [some "10", some "20"])])] := by
  constructor
  · intro evs t k
    have h := lookup2_events_fold evs [] t k
    unfold parse_events_by_type
    rw [h]
    rfl
  · rfl

theorem exceptMap_txlog_msg_index (logs : List LogRecord) :
    ∀ n : Nat, (∀ r ∈ logs, r.events.isSome = true) →
      (exceptMap (fun p => TxLog.make p.1 p.2.log p.2.events) (List.enumFrom n logs)).map
        (fun tls => tls.map TxLog.msg_index) = .ok (List.range' n logs.length) := by
  induction logs with
  | nil => intro n _; rfl
  | cons r rest ih =>
    intro n h
    obtain ⟨evs, hev⟩ : ∃ evs, r.events = some evs := by
      have hr := h r (List.mem_cons_self r rest)
      cases hc : r.events with
      | none => rw [hc] at hr; simp at hr
      | some evs => exact ⟨evs, rfl⟩
    have ih' := ih (n + 1) (fun r' hr' => h r' (List.mem_cons_of_mem r hr'))
    rcases hmap : exceptMap (fun p => TxLog.make p.1 p.2.log p.2.events)
        (List.enumFrom (n + 1) rest) with e | w
    · rw [hmap] at ih'; exact absurd ih' (by simp [Except.map])
    · rw [hmap] at ih'
      have hw : w.map TxLog.msg_index = List.range' (n + 1) rest.length := by
        simpa [Except.map] using ih'
      have hmake : TxLog.make n r.log r.events =
          .ok ⟨n, r.log, evs, parse_events_by_type evs⟩ := by
        rw [hev]
        rfl
      have hstep : exceptMap (fun p => TxLog.make p.1 p.2.log p.2.events)
          (List.enumFrom n (r :: rest)) =
          .ok (⟨n, r.log, evs, parse_events_by_type evs⟩ :: w) := by
        show (do
          let b ← TxLog.make n r.log r.events
          let bs ← exceptMap (fun p => TxLog.make p.1 p.2.log p.2.events)
            (List.enumFrom (n + 1) rest)
          Except.ok (b :: bs)) =
          Except.ok (⟨n, r.log, evs, parse_events_by_type evs⟩ :: w)
        rw [hmake, hmap]
        rfl
      rw [hstep]
      simp [Except.map, hw, List.range'_succ]

/-- C4 amended: parse_tx_logs maps both the absent input None and the
empty sequence to the no-logs result None (the source tests Python
truthiness, under which the empty list and None coincide); for every
non-empty input whose records each carry an events sequence it returns
one TxLog per record whose msg_index is the record's position. -/
theorem parse_tx_logs_amended :
    parse_tx_logs none = .ok none ∧
    parse_tx_logs (some []) = .ok none ∧
    ∀ logs : List LogRecord, (∀ r ∈ logs, r.events.isSome = true) →
      (parse_tx_logs (some logs)).map (Option.map (fun tls => tls.map TxLog.msg_index)) =
        .ok (if logs.isEmpty then none else some (List.range logs.length)) := by
  refine ⟨rfl, rfl, ?_⟩
  intro logs h
  cases logs with
  | nil => rfl
  | cons r rest =>
    have hm := exceptMap_txlog_msg_index (r :: rest) 0 h
    rcases hmap : exceptMap (fun p => TxLog.make p.1 p.2.log p.2.events)
        (List.enumFrom 0 (r :: rest)) with e | w
    · rw [hmap] at hm; exact absurd hm (by simp [Except.map])
    · rw [hmap] at hm
      have hw : w.map TxLog.msg_index = List.range' 0 (rest.length + 1) := by
        simpa [Except.map] using hm
      show ((exceptMap (fun p => TxLog.make p.1 p.2.log p.2.events)
          (List.enumFrom 0 (r :: rest))).map some).map
            (Option.map (fun tls => tls.map TxLog.msg_index)) =
        .ok (if (r :: rest).isEmpty then none else some (List.range (r :: rest).length))
      rw [hmap]
      simp [Except.map, hw, List.range_eq_range']

/-- Witness for the amended C4 statement at a concrete two-record
input: both records carry events, and the two produced TxLogs are
numbered 0 and 1. -/
theorem parse_tx_logs_amended_witness :
    (parse_tx_logs (some [⟨some "", some []⟩,
        ⟨none, some [⟨"transfer", []⟩]⟩])).map
      (Option.map (fun tls => tls.map TxLog.msg_index)) = .ok (some [0, 1]) := by
  have h := parse_tx_logs_amended.2.2
    [⟨some "", some []⟩, ⟨none, some [⟨"transfer", []⟩]⟩]
    (by intro r hr
        simp only [List.mem_cons, List.not_mem_nil, or_false] at hr
        rcases hr with rfl | rfl <;> rfl)
  simpa using h

theorem exceptBindOk {α β : Type} (a : α) (f : α → Except PyError β) :
    (do let x ← Except.ok a; f x) = f a := rfl

theorem exceptMapOk {α β : Type} (a : α) (f : α → β) :
    (Except.ok a : Except PyError α).map f = .ok (f a) := rfl

/-- C6 counterexample: the claim demands that a failed transaction
(code set) retain the code and codespace keys; for a TxInfo whose code
is the set value 0 and whose codespace is absent, TxInfo.to_data
(lines 528-537) drops both keys, because the deletion test is
truthiness. -/
theorem txinfo_failed_tx_keys_dropped :
    (TxInfo.to_data ⟨12, "HASH", "raw", none, 1, 2,
        ⟨⟨[], some "", none⟩, ⟨[], ⟨Data.null⟩⟩, []⟩, "TS", some 0, none⟩).map
      (fun d => (d.hasKey "code", d.hasKey "codespace")) = .ok (false, false) := rfl

/-- C6 amended: TxInfo.to_document carries each of the logs, code and
codespace keys exactly when the corresponding field is truthy (set,
nonzero, non-empty); so the logs key is omitted when logs is absent,
unset code and codespace are omitted rather than emitted as null, and
a failed transaction retains the code key when its code is nonzero and
the codespace key exactly when codespace is itself set and
non-empty. -/
theorem txinfo_optional_keys_present_iff_truthy :
    ∀ i : TxInfo,
      (TxInfo.to_data i).map
          (fun d => (d.hasKey "logs", d.hasKey "code", d.hasKey "codespace")) =
        (TxInfo.to_data i).map
          (fun _ => (i.logsTruthy, i.codeTruthy, i.codespaceTruthy)) := by
  intro i
  unfold TxInfo.to_data
  rcases htx : i.tx.to_data with e | a
  · rfl
  · cases hl : i.logsTruthy <;> cases hc : i.codeTruthy <;> cases hcs : i.codespaceTruthy <;>
      simp [exceptBindOk, exceptMapOk, Data.hasKey, Data.lookupKey, delKey, assocGet,
        hl, hc, hcs]

/-- C10: a TxInfo whose code field is the present integer 0 produces
the very same document as one whose code is absent, and that document
carries no code key: the omission test of lines 528-537 is truthiness
(not self.code), not presence. -/
theorem txinfo_code_zero_indistinguishable :
    ∀ i : TxInfo,
      TxInfo.to_data { i with code := some 0 } = TxInfo.to_data { i with code := none } ∧
      (TxInfo.to_data { i with code := some 0 }).map (fun d => d.hasKey "code") =
        (TxInfo.to_data { i with code := some 0 }).map (fun _ => false) := by
  intro i
  unfold TxInfo.to_data
  rcases htx : i.tx.to_data with e | a
  · exact ⟨rfl, rfl⟩
  · constructor
    · cases hl : i.logsTruthy <;> cases hcs : i.codespaceTruthy <;>
        simp [exceptBindOk, TxInfo.logsTruthy, TxInfo.codeTruthy, TxInfo.codespaceTruthy,
          delKey, assocGet, hl, hcs] <;>
        simp_all [TxInfo.logsTruthy, TxInfo.codespaceTruthy, assocGet, delKey]
    · cases hl : i.logsTruthy <;> cases hcs : i.codespaceTruthy <;>
        simp [exceptBindOk, exceptMapOk, TxInfo.logsTruthy, TxInfo.codeTruthy,
          TxInfo.codespaceTruthy, Data.hasKey, Data.lookupKey, delKey, assocGet, hl, hcs] <;>
        simp_all [TxInfo.logsTruthy, TxInfo.codespaceTruthy, assocGet, delKey]

/-- C7 amended: in the structured document, height, gas_wanted and
gas_used are emitted as decimal strings (lines 516-521), but the
signer sequence is emitted by SignerInfo.to_data (lines 224-229) as a
native integer, not as a decimal string. -/
theorem int64_fields_document_encoding :
    (∀ i : TxInfo,
      (TxInfo.to_data i).map (fun d =>
        (d.lookupKey "height", d.lookupKey "gas_wanted", d.lookupKey "gas_used")) =
      (TxInfo.to_data i).map (fun _ =>
        (some (Data.str (toString i.height)),
         some (Data.str (toString i.gas_wanted)),
         some (Data.str (toString i.gas_used))))) ∧
    (∀ s : SignerInfo,
      (SignerInfo.to_data s).map (fun d => d.lookupKey "sequence") =
        (SignerInfo.to_data s).map (fun _ => some (Data.int s.sequence))) := by
  constructor
  · intro i
    unfold TxInfo.to_data
    rcases htx : i.tx.to_data with e | a
    · rfl
    · cases hl : i.logsTruthy <;> cases hc : i.codeTruthy <;> cases hcs : i.codespaceTruthy <;>
        simp [exceptBindOk, exceptMapOk, Data.lookupKey, delKey, assocGet, hl, hc, hcs]
  · intro s
    unfold SignerInfo.to_data
    rcases hmi : s.mode_info.to_data with e | mi
    · rfl
    · rfl
